import Mathlib

/-!
Verification of the query engine of `orchid_app_complete.py` (class
`OrchidSearchDB`): a shallow embedding of its five search operations
(`intelligent_search`, `fulltext_search`, `fallback_search`,
`semantic_search`, `combined_search`) together with the synonym expander
(`expand_query`) and the text normalizer (`preprocess_text`), plus proofs of
the specification's testable properties about them.

Modelling conventions:
- SQLite rows become a `Record` structure; nullable TEXT columns are
  `Option String`, the REAL temperature columns are `Option Int`.  Only the
  columns the five search operations actually read are carried (the other
  ~50 columns are never consulted by any query path).
- `col LIKE ?` with a bound pattern `%term%` is modelled by case-insensitive
  substring containment (`likeContains`); a NULL column gives SQL NULL,
  which a WHERE clause treats as false.  None of the terms fed to LIKE by
  the claims contain the wildcard characters.
- `LIMIT ?` keeps SQLite's documented semantics (`sqlLimit`): a negative
  limit means "no upper bound", a non-negative limit takes a prefix.
- The FTS5 MATCH primitive is an external engine; it is modelled as an
  abstract parameter `eng : String → Option (List Nat)` returning the
  matching rowids, with `none` standing for an engine-level failure
  (malformed MATCH syntax), which the Python code catches.
- `ORDER BY relevance_score DESC` is modelled by a stable insertion sort on
  the computed score; the spec pins tie-breaking to the store's natural
  retrieval order, which a stable sort preserves.
-/

/-- Bool test: is this a character Python's `str.strip()` / whitespace
tokenization treats as whitespace (ASCII range)? -/
def pyWs (c : Char) : Bool :=
  c = ' ' || c = '\t' || c = '\n' || c = '\r' || c = '\x0b' || c = '\x0c'

/-- `listPrefixB n l` : does `n` occur at the front of `l`? -/
def listPrefixB : List Char → List Char → Bool
  | [], _ => true
  | _ :: _, [] => false
  | a :: as, b :: bs => a = b && listPrefixB as bs

/-- `listSubB n l` : does `n` occur contiguously somewhere in `l`?
(The empty needle occurs in every list.) -/
def listSubB (n : List Char) : List Char → Bool
  | [] => listPrefixB n []
  | b :: bs => listPrefixB n (b :: bs) || listSubB n bs

/-- Python's `needle in hay` on strings: contiguous-substring test. -/
def strIn (needle hay : String) : Bool :=
  listSubB needle.toList hay.toList

/-- Python's `str.strip()`: drop leading and trailing whitespace. -/
def pyStrip (s : String) : String :=
  String.mk (((s.toList.dropWhile pyWs).reverse.dropWhile pyWs).reverse)

/-- Python's `str.lower()` (ASCII range), character by character. -/
def strLower (s : String) : String :=
  String.mk (s.toList.map Char.toLower)

/-- SQL `col LIKE '%term%'` with `col` a nullable TEXT column: SQLite LIKE is
case-insensitive for ASCII, and a NULL column makes the predicate false. -/
def likeContains (field : Option String) (term : String) : Bool :=
  match field with
  | none => false
  | some s => strIn (strLower term) (strLower s)

/-- SQLite `LIMIT ?`: a negative limit places no upper bound on the number of
returned rows; a non-negative limit keeps a prefix of that length. -/
def sqlLimit (limit : Int) (l : List α) : List α :=
  if limit < 0 then l else l.take limit.toNat

/-- One row of the `orchids` table, restricted to the columns that the five
search operations read.  TEXT columns are nullable strings; the REAL
temperature columns are modelled as nullable integers. -/
structure Record where
  id : Nat := 0
  Scientific_Name : Option String := none
  Genus : Option String := none
  Flower_Color : Option String := none
  Common_Names : Option String := none
  Native_Regions : Option String := none
  Native_Habitat : Option String := none
  Special_Features : Option String := none
  Fragrance : Option String := none
  Fragrance_Description : Option String := none
  Petal_Shape : Option String := none
  Lip_Color : Option String := none
  Temperature_Preference : Option String := none
  Blooming_Season : Option String := none
  Horticultural_Notes : Option String := none
  Growth_Habit : Option String := none
  Horticultural_Difficulty : Option String := none
  Temperature_Min_C : Option Int := none
  Temperature_Max_C : Option Int := none
deriving DecidableEq

/-- The `color_synonyms` table of `OrchidSearchDB.__init__`. -/
def color_synonyms : List (String × List String) :=
  [("pink", ["pink", "rose", "magenta", "fuchsia"]),
   ("white", ["white", "cream", "ivory", "pale"]),
   ("yellow", ["yellow", "gold", "golden", "lemon"]),
   ("purple", ["purple", "violet", "lavender", "mauve"]),
   ("red", ["red", "crimson", "scarlet", "burgundy"]),
   ("orange", ["orange", "coral", "peach", "apricot"]),
   ("blue", ["blue", "azure", "indigo"]),
   ("green", ["green", "lime", "chartreuse"])]

/-- The `region_synonyms` table of `OrchidSearchDB.__init__`. -/
def region_synonyms : List (String × List String) :=
  [("southeast asia", ["southeast asia", "se asia", "philippines", "indonesia",
                       "thailand", "vietnam", "malaysia"]),
   ("south america", ["south america", "brazil", "colombia", "ecuador", "peru"]),
   ("central america", ["central america", "mexico", "costa rica", "panama"]),
   ("asia", ["asia", "china", "japan", "india", "taiwan"])]

/-- `OrchidSearchDB.expand_query`: lower-case and strip the token, extend it
with the first color group having the token as a member (`query_lower in
synonyms`), then with the first region group whose NAME contains the token as
a substring or having it as a member (`query_lower in region or query_lower in
synonyms`), and de-duplicate.  Python's `list(set(expanded))` has unspecified
iteration order, so the result is used only through set-level facts
(membership, singleton-ness); `List.dedup` is a canonical representative.
`expandColor` is the first loop (`break` = first match wins), `expandRegion`
the second, `expand_query` their composition on the normalized token. -/
def expandColor (ql : String) : List String :=
  match color_synonyms.find? (fun p => p.2.contains ql) with
  | some p => [ql] ++ p.2
  | none => [ql]

def expandRegion (ql : String) (e1 : List String) : List String :=
  match region_synonyms.find? (fun p => strIn ql p.1 || p.2.contains ql) with
  | some p => e1 ++ p.2
  | none => e1

def expand_query (query : String) : List String :=
  (expandRegion (pyStrip (strLower query))
    (expandColor (pyStrip (strLower query)))).dedup

/-- A small stand-in for the NLTK English stop-word list (closed data of an
external library); none of the inputs exercised by the claims hit it. -/
def stop_words : List String :=
  ["the", "a", "an", "of", "from", "in", "on", "and", "or", "with", "is", "are"]

/-- Tokenizer core: split a character list at separator characters. -/
def splitTok (p : Char → Bool) : List Char → List Char → List (List Char)
  | acc, [] => [acc.reverse]
  | acc, c :: cs => if p c then acc.reverse :: splitTok p [] cs else splitTok p (c :: acc) cs

/-- Modelled from the spec: `OrchidSearchDB.preprocess_text` delegates to
NLTK (`word_tokenize`, the English stop-word corpus, `WordNetLemmatizer`),
which is external data and code not in this repository.  Per spec section 4.1
it lower-cases, splits into word tokens, discards non-alphanumeric tokens and
stop-words, and lemmatizes; modelled here as whitespace tokenization with an
identity lemmatizer (the tokens the claims exercise are their own lemmas).
The theorems that quantify over queries take the normalizer as an abstract
parameter, so they cover NLTK's actual behavior as an instance. -/
def preprocess_text (text : String) : List String :=
  ((splitTok pyWs [] (text.toList.map Char.toLower)).map String.mk).filter
    (fun t => t ≠ "" && t.toList.all Char.isAlphanum && !stop_words.contains t)

/-- The fifteen-field disjunction built per expanded term inside
`intelligent_search` (the `token_conditions` LIKE block). -/
def matches15 (r : Record) (term : String) : Bool :=
  likeContains r.Scientific_Name term || likeContains r.Genus term ||
  likeContains r.Flower_Color term || likeContains r.Common_Names term ||
  likeContains r.Native_Regions term || likeContains r.Native_Habitat term ||
  likeContains r.Special_Features term || likeContains r.Fragrance term ||
  likeContains r.Fragrance_Description term || likeContains r.Petal_Shape term ||
  likeContains r.Lip_Color term || likeContains r.Temperature_Preference term ||
  likeContains r.Blooming_Season term || likeContains r.Horticultural_Notes term ||
  likeContains r.Growth_Habit term

/-- The CASE expression computing `relevance_score` in `intelligent_search`,
evaluated against the first normalized token. -/
def relScore (t0 : String) (r : Record) : Nat :=
  if likeContains r.Scientific_Name t0 then 10
  else if likeContains r.Genus t0 then 8
  else if likeContains r.Common_Names t0 then 7
  else if likeContains r.Flower_Color t0 then 6
  else 1

/-- Ordering used by `ORDER BY relevance_score DESC`: `a` may come before `b`
when `a`'s score is at least `b`'s. -/
def scoreGe (t0 : String) (a b : Record) : Prop :=
  relScore t0 b ≤ relScore t0 a

instance (t0 : String) : DecidableRel (scoreGe t0) :=
  fun a b => inferInstanceAs (Decidable (relScore t0 b ≤ relScore t0 a))

instance (t0 : String) : IsTotal Record (scoreGe t0) :=
  ⟨fun a b => Nat.le_total (relScore t0 b) (relScore t0 a)⟩

instance (t0 : String) : IsTrans Record (scoreGe t0) :=
  ⟨fun _ _ _ hab hbc => Nat.le_trans hbc hab⟩

/-- `OrchidSearchDB.intelligent_search(query, limit)`: empty query returns
`[]`; otherwise normalize the query (the normalizer is NLTK, taken as the
parameter `pre`); if no tokens survive, the condition list is empty and the
function returns `[]`; otherwise keep every record matching any
synonym-expanded term of any token in any of the fifteen fields, order by the
CASE relevance score of the first token (descending, stable), and apply the
SQL LIMIT. -/
def intelligent_search (pre : String → List String) (store : List Record)
    (query : String) (limit : Int) : List Record :=
  if query = "" then []
  else if (pre query).isEmpty then []
  else
    sqlLimit limit
      (List.insertionSort (scoreGe ((pre query).headD ""))
        (store.filter (fun r =>
          (pre query).any (fun tok => (expand_query tok).any (fun term => matches15 r term)))))

/-- The six-field disjunction of `fallback_search`. -/
def matches6 (r : Record) (q : String) : Bool :=
  likeContains r.Scientific_Name q || likeContains r.Genus q ||
  likeContains r.Flower_Color q || likeContains r.Common_Names q ||
  likeContains r.Native_Regions q || likeContains r.Special_Features q

/-- `OrchidSearchDB.fallback_search(query, limit)`: substring-match the raw
query against six identification fields, OR-combined, with the SQL LIMIT.
Note: no empty-query guard exists in this function. -/
def fallback_search (store : List Record) (query : String) (limit : Int) : List Record :=
  sqlLimit limit (store.filter (fun r => matches6 r query))

/-- `OrchidSearchDB.fulltext_search(query, limit)`: strip the query; an empty
stripped query returns `[]`; otherwise consult the FTS5 MATCH primitive `eng`
(external engine, returning matched rowids or an engine failure); on success
keep records whose id is among the matches (natural order, SQL LIMIT); on
failure the except-branch calls `fallback_search` with the STRIPPED query
(the local variable was reassigned by `query = query.strip()` before the
failing statement). -/
def fulltext_search (eng : String → Option (List Nat)) (store : List Record)
    (query : String) (limit : Int) : List Record :=
  if pyStrip query = "" then []
  else
    match eng (pyStrip query) with
    | some ids => sqlLimit limit (store.filter (fun r => ids.contains r.id))
    | none => fallback_search store (pyStrip query) limit

/-- A value in a Python keyword-filter bag: a string, a number, or `None`.
(The temperature filters are numeric per the schema and spec; a numeric
filter given a numeric-looking string is converted, mirroring SQLite column
affinity.  Passing a non-string to the `fragrance` filter of
`semantic_search` would raise `AttributeError` in Python and is outside the
model; no claim exercises it.) -/
inductive FVal where
  | vstr (s : String)
  | vnum (n : Int)
  | vnone
deriving DecidableEq

/-- A `**filters` keyword bag: keys with values, in call order. -/
abbrev FBag := List (String × FVal)

/-- Dictionary lookup `filters[k]` (with `k in filters` as `some`-ness). -/
def findVal (k : String) (fs : FBag) : Option FVal :=
  (fs.find? (fun p => p.1 = k)).map (fun p => p.2)

/-- Python truthiness of a bag value: non-empty string / non-zero number. -/
def truthyV : FVal → Bool
  | .vstr s => s ≠ ""
  | .vnum n => n ≠ 0
  | .vnone => false

/-- Truthiness of an optional bag value (`k in filters and filters[k]`). -/
def truthy : Option FVal → Bool
  | some w => truthyV w
  | none => false

/-- `k in filters and filters[k] is not None` (the numeric-filter guard). -/
def notNone : Option FVal → Bool
  | some w => w ≠ FVal.vnone
  | none => false

/-- Python `f"{v}"` for a bag value. -/
def fvalText : FVal → String
  | .vstr s => s
  | .vnum n => toString n
  | .vnone => "None"

/-- Numeric view of a bag value bound in a comparison against a REAL column:
numbers directly, numeric-looking strings by SQLite affinity conversion. -/
def numOf : FVal → Option Int
  | .vnum n => some n
  | .vstr s => s.toInt?
  | .vnone => none

/-- SQL `col >= ?` on a nullable numeric column (NULL compares to false). -/
def numGE (col : Option Int) (v : FVal) : Bool :=
  match col, numOf v with
  | some c, some n => n ≤ c
  | _, _ => false

/-- SQL `col <= ?` on a nullable numeric column (NULL compares to false). -/
def numLE (col : Option Int) (v : FVal) : Bool :=
  match col, numOf v with
  | some c, some n => c ≤ n
  | _, _ => false

/-- One optional text filter: when the key is present with a truthy value it
contributes `field LIKE '%value%'`, otherwise no constraint. -/
def tcond (v : Option FVal) (field : Option String) : Bool :=
  match v with
  | some w => if truthyV w then likeContains field (fvalText w) else true
  | none => true

/-- One optional `>=` numeric filter (guard: present and not `None`). -/
def ncondGE (v : Option FVal) (col : Option Int) : Bool :=
  match v with
  | some w => if w = FVal.vnone then true else numGE col w
  | none => true

/-- One optional `<=` numeric filter (guard: present and not `None`). -/
def ncondLE (v : Option FVal) (col : Option Int) : Bool :=
  match v with
  | some w => if w = FVal.vnone then true else numLE col w
  | none => true

/-- The fragrance filter of `semantic_search`: the literal value `fragrant`
(case-insensitively) matches `Fragrance LIKE '%fragrant%' OR Fragrance LIKE
'%Fragrant%'`; any other truthy value is substring-matched. -/
def fragCondSem (v : Option FVal) (field : Option String) : Bool :=
  match v with
  | some w =>
      if truthyV w then
        if strLower (fvalText w) = "fragrant" then
          likeContains field "fragrant" || likeContains field "Fragrant"
        else likeContains field (fvalText w)
      else true
  | none => true

/-- The fragrance filter of `combined_search`: substring match against
`Fragrance` OR `Fragrance_Description` (no special case). -/
def fragCondComb (v : Option FVal) (frag descr : Option String) : Bool :=
  match v with
  | some w =>
      if truthyV w then
        likeContains frag (fvalText w) || likeContains descr (fvalText w)
      else true
  | none => true

/-- The WHERE clause of `semantic_search` as a function of the seven
recognized filter values (in the order the code tests them: genus,
flower_color, min_temp, max_temp, native_region, fragrance, difficulty),
AND-combined; with no active filter it degenerates to `1=1`. -/
def semCondV (g fc mn mx nr fr df : Option FVal) (r : Record) : Bool :=
  tcond g r.Genus && tcond fc r.Flower_Color &&
  ncondGE mn r.Temperature_Min_C && ncondLE mx r.Temperature_Max_C &&
  tcond nr r.Native_Regions && fragCondSem fr r.Fragrance &&
  tcond df r.Horticultural_Difficulty

/-- The keys `semantic_search` / `combined_search` consult in their bags. -/
def recognizedFilterKeys : List String :=
  ["genus", "flower_color", "min_temp", "max_temp", "native_region",
   "fragrance", "difficulty"]

/-- `OrchidSearchDB.semantic_search(limit, **filters)`: read the seven
recognized keys from the bag (all other keys are never consulted), AND the
active conditions, apply the SQL LIMIT. -/
def semantic_search (store : List Record) (limit : Int) (fs : FBag) : List Record :=
  sqlLimit limit (store.filter
    (semCondV (findVal "genus" fs) (findVal "flower_color" fs)
      (findVal "min_temp" fs) (findVal "max_temp" fs)
      (findVal "native_region" fs) (findVal "fragrance" fs)
      (findVal "difficulty" fs)))

/-- The seven-field OR-group contributed by a truthy `text_query` in
`combined_search` (`if text_query:` also skips the empty string). -/
def matches7 (r : Record) (s : String) : Bool :=
  likeContains r.Scientific_Name s || likeContains r.Genus s ||
  likeContains r.Flower_Color s || likeContains r.Common_Names s ||
  likeContains r.Native_Regions s || likeContains r.Special_Features s ||
  likeContains r.Fragrance_Description s

/-- The text component of `combined_search`: absent or empty text contributes
no condition. -/
def textCond (tq : Option String) (r : Record) : Bool :=
  match tq with
  | some s => if s = "" then true else matches7 r s
  | none => true

/-- The WHERE clause of `combined_search` (text, genus, flower_color,
native_region, fragrance, min_temp, max_temp, difficulty, AND-combined under
the leading `1=1`). -/
def combCondV (tq : Option String) (g fc nr fr mn mx df : Option FVal)
    (r : Record) : Bool :=
  textCond tq r && tcond g r.Genus && tcond fc r.Flower_Color &&
  tcond nr r.Native_Regions &&
  fragCondComb fr r.Fragrance r.Fragrance_Description &&
  ncondGE mn r.Temperature_Min_C && ncondLE mx r.Temperature_Max_C &&
  tcond df r.Horticultural_Difficulty

/-- `OrchidSearchDB.combined_search(text_query, limit, **filters)`. -/
def combined_search (tq : Option String) (store : List Record) (limit : Int)
    (fs : FBag) : List Record :=
  sqlLimit limit (store.filter
    (combCondV tq (findVal "genus" fs) (findVal "flower_color" fs)
      (findVal "native_region" fs) (findVal "fragrance" fs)
      (findVal "min_temp" fs) (findVal "max_temp" fs)
      (findVal "difficulty" fs)))

/-- No recognized filter of `semantic_search` carries an active value: the
text filters are falsy and the numeric filters absent or `None`. -/
def semNoActive (fs : FBag) : Bool :=
  !truthy (findVal "genus" fs) && !truthy (findVal "flower_color" fs) &&
  !notNone (findVal "min_temp" fs) && !notNone (findVal "max_temp" fs) &&
  !truthy (findVal "native_region" fs) && !truthy (findVal "fragrance" fs) &&
  !truthy (findVal "difficulty" fs)

/-- Like `semNoActive` but leaving the genus slot unconstrained. -/
def semOnlyGenus (fs : FBag) : Bool :=
  !truthy (findVal "flower_color" fs) &&
  !notNone (findVal "min_temp" fs) && !notNone (findVal "max_temp" fs) &&
  !truthy (findVal "native_region" fs) && !truthy (findVal "fragrance" fs) &&
  !truthy (findVal "difficulty" fs)

/-! ### Helper lemmas -/

theorem sqlLimit_sublist (limit : Int) (l : List α) : (sqlLimit limit l).Sublist l := by
  unfold sqlLimit
  split
  · exact List.Sublist.refl l
  · exact List.take_sublist _ l

theorem mem_sqlLimit {a : α} {limit : Int} {l : List α}
    (h : a ∈ sqlLimit limit l) : a ∈ l :=
  (sqlLimit_sublist limit l).subset h

theorem sqlLimit_length_le {limit : Int} (h : 0 ≤ limit) (l : List α) :
    ((sqlLimit limit l).length : Int) ≤ limit := by
  unfold sqlLimit
  split
  · omega
  · have := List.length_take_le limit.toNat l
    omega

theorem listSubB_nil (l : List Char) : listSubB [] l = true := by
  cases l <;> rfl

theorem likeContains_empty_term (f : Option String) : likeContains f "" = f.isSome := by
  cases f with
  | none => rfl
  | some s =>
      show strIn (strLower "") (strLower s) = true
      exact listSubB_nil _

theorem pyWs_toLower {c : Char} (h : pyWs c = true) : pyWs c.toLower = true := by
  simp only [pyWs, Bool.or_eq_true, decide_eq_true_eq] at h
  rcases h with ((((h | h) | h) | h) | h) | h <;> subst h <;> decide

theorem splitTok_all_nil {p : Char → Bool} (l : List Char)
    (h : ∀ c ∈ l, p c = true) : ∀ t ∈ splitTok p [] l, t = [] := by
  induction l with
  | nil =>
      intro t ht
      simp only [splitTok, List.reverse_nil, List.mem_singleton] at ht
      exact ht
  | cons c cs ih =>
      intro t ht
      have hc : p c = true := h c (List.mem_cons_self c cs)
      simp only [splitTok, hc, if_true, List.reverse_nil, List.mem_cons] at ht
      rcases ht with h1 | h2
      · exact h1
      · exact ih (fun x hx => h x (List.mem_cons_of_mem c hx)) t h2

theorem preprocess_text_ws {q : String} (h : ∀ c ∈ q.toList, pyWs c = true) :
    preprocess_text q = [] := by
  unfold preprocess_text
  rw [List.filter_eq_nil_iff]
  intro t ht
  rcases List.mem_map.1 ht with ⟨cs, hcs, rfl⟩
  have hcs' : cs = [] := by
    refine splitTok_all_nil _ ?_ cs hcs
    intro c hc
    rcases List.mem_map.1 hc with ⟨c0, hc0, rfl⟩
    exact pyWs_toLower (h c0 hc0)
  subst hcs'
  simp

theorem dropWhile_all {p : α → Bool} (l : List α) (h : ∀ a ∈ l, p a = true) :
    l.dropWhile p = [] := by
  induction l with
  | nil => rfl
  | cons a as ih =>
      rw [List.dropWhile_cons_of_pos (h a (List.mem_cons_self a as))]
      exact ih (fun x hx => h x (List.mem_cons_of_mem a hx))

theorem pyStrip_ws {q : String} (h : ∀ c ∈ q.toList, pyWs c = true) :
    pyStrip q = "" := by
  unfold pyStrip
  rw [dropWhile_all _ h]
  rfl

theorem intelligent_search_no_tokens (pre : String → List String)
    (store : List Record) (q : String) (limit : Int) (h : pre q = []) :
    intelligent_search pre store q limit = [] := by
  unfold intelligent_search
  split
  · rfl
  · simp [h]

/-! ### Claim C1 -/

/-- Store record used by the C1 counterexample. -/
def c1rec : Record := { Scientific_Name := some "Vanda sanderiana" }

/-- Claim C1 counterexample: the claim says every search path returns an
empty result for an empty or whitespace-only query, but `fallback_search`
has no empty-query guard: the empty query becomes `LIKE '%%'`, which matches
every record with a non-null scanned field, so on a one-record store the
fallback path returns that record. -/
theorem c1_counterexample :
    fallback_search [c1rec] "" 5 = [c1rec]
    ∧ fallback_search [c1rec] "" 5 ≠ [] := by
  constructor <;> decide

/-- Claim C1 (amended): for every empty or whitespace-only query, the
smart/natural-language path and the full-text path return the empty list and
never fail — the smart path returns `[]` under its own normalizer and under
any normalizer that yields no tokens.  The fallback path, by contrast, has no
empty-query guard: called with the empty query it returns every record
having at least one non-null of its six scanned fields, capped by the SQL
limit (and a whitespace-only query is substring-matched literally). -/
theorem c1_empty_whitespace_queries (pre : String → List String)
    (eng : String → Option (List Nat)) (store : List Record) (q : String)
    (limit : Int) (hws : ∀ c ∈ q.toList, pyWs c = true) :
    intelligent_search preprocess_text store q limit = []
    ∧ fulltext_search eng store q limit = []
    ∧ (pre q = [] → intelligent_search pre store q limit = [])
    ∧ fallback_search store "" limit =
        sqlLimit limit (store.filter (fun r =>
          r.Scientific_Name.isSome || r.Genus.isSome || r.Flower_Color.isSome ||
          r.Common_Names.isSome || r.Native_Regions.isSome ||
          r.Special_Features.isSome)) := by
  refine ⟨?_, ?_, fun h => intelligent_search_no_tokens pre store q limit h, ?_⟩
  · exact intelligent_search_no_tokens _ store q limit (preprocess_text_ws hws)
  · unfold fulltext_search
    simp [pyStrip_ws hws]
  · unfold fallback_search
    congr 1
    apply List.filter_congr
    intro r _
    unfold matches6
    simp [likeContains_empty_term]

/-- Store record used by the C1 witness. -/
def c1wrec : Record := { Genus := some "Phalaenopsis" }

/-- Witness for `c1_empty_whitespace_queries` at the one-space query. -/
theorem c1_witness :
    intelligent_search preprocess_text [c1wrec] " " 7 = []
    ∧ fulltext_search (fun _ => none) [c1wrec] " " 7 = []
    ∧ ((fun _ => ([] : List String)) " " = [] →
        intelligent_search (fun _ => []) [c1wrec] " " 7 = [])
    ∧ fallback_search [c1wrec] "" 7 =
        sqlLimit 7 ([c1wrec].filter (fun r =>
          r.Scientific_Name.isSome || r.Genus.isSome || r.Flower_Color.isSome ||
          r.Common_Names.isSome || r.Native_Regions.isSome ||
          r.Special_Features.isSome)) :=
  c1_empty_whitespace_queries (fun _ => []) (fun _ => none) [c1wrec] " " 7
    (by decide)

/-! ### Claim C2 -/

/-- Store record used by the C2 counterexample. -/
def c2rec : Record := { Scientific_Name := some "Maxillaria tenuifolia" }

/-- Claim C2 counterexample: the claim quantifies over every caller-supplied
limit, but SQLite's `LIMIT` places no bound when the limit is negative: with
limit -1 the structured-filter path on a one-record store returns one record,
whose length (1) exceeds the limit (-1). -/
theorem c2_counterexample :
    ¬ (((semantic_search [c2rec] (-1) []).length : Int) ≤ -1) := by decide

/-- Claim C2 (amended): for every NON-NEGATIVE caller-supplied limit, every
query shape (smart, full-text, fallback, structured-filter, combined) and
every input, the returned list has length at most the limit.  (A negative
limit is passed straight to SQLite's LIMIT, which then imposes no bound —
see the counterexample.) -/
theorem c2_limit_bound (pre : String → List String)
    (eng : String → Option (List Nat)) (store : List Record) (q : String)
    (tq : Option String) (fs : FBag) (limit : Int) (h : 0 ≤ limit) :
    ((intelligent_search pre store q limit).length : Int) ≤ limit
    ∧ ((fulltext_search eng store q limit).length : Int) ≤ limit
    ∧ ((fallback_search store q limit).length : Int) ≤ limit
    ∧ ((semantic_search store limit fs).length : Int) ≤ limit
    ∧ ((combined_search tq store limit fs).length : Int) ≤ limit := by
  refine ⟨?_, ?_, ?_, ?_, ?_⟩
  · unfold intelligent_search
    split
    · simpa using h
    · split
      · simpa using h
      · exact sqlLimit_length_le h _
  · unfold fulltext_search
    split
    · simpa using h
    · split
      · exact sqlLimit_length_le h _
      · exact sqlLimit_length_le h _
  · exact sqlLimit_length_le h _
  · exact sqlLimit_length_le h _
  · exact sqlLimit_length_le h _

/-- Witness for `c2_limit_bound` at limit 1 on a two-record store. -/
theorem c2_witness :
    ((intelligent_search preprocess_text [c2rec, c1rec] "vanda" 1).length : Int) ≤ 1
    ∧ ((fulltext_search (fun _ => some [0]) [c2rec, c1rec] "vanda" 1).length : Int) ≤ 1
    ∧ ((fallback_search [c2rec, c1rec] "a" 1).length : Int) ≤ 1
    ∧ ((semantic_search [c2rec, c1rec] 1 []).length : Int) ≤ 1
    ∧ ((combined_search (some "a") [c2rec, c1rec] 1 []).length : Int) ≤ 1 :=
  c2_limit_bound preprocess_text (fun _ => some [0]) [c2rec, c1rec] "vanda"
    (some "a") [] 1 (by decide)

/-! ### Claim C3 -/

/-- Store record used by the C3 counterexample and witness. -/
def c3rec : Record := { Scientific_Name := some "Vanda coerulea" }

/-- Claim C3 counterexample: the claim's conjunct "the result length is at
most the limit" fails for the caller-supplied limit -1 (SQLite: negative
LIMIT = no bound): smart search for "vanda" on a one-record matching store
returns one record. -/
theorem c3_counterexample :
    ¬ (((intelligent_search preprocess_text [c3rec] "vanda" (-1)).length : Int)
        ≤ -1) := by decide

/-- Claim C3 (amended): for every normalizer, store, query and limit, every
record returned by the smart path matches — case-insensitively, as a
substring, via `matches15` over the fifteen scanned fields — at least one
synonym-expanded term of at least one normalized query token; and for every
NON-NEGATIVE limit the result length is at most the limit (a negative limit
imposes no bound; see the counterexample). -/
theorem c3_smart_search_matching (pre : String → List String)
    (store : List Record) (q : String) (limit : Int) :
    (∀ r ∈ intelligent_search pre store q limit,
       ∃ tok ∈ pre q, ∃ term ∈ expand_query tok, matches15 r term = true)
    ∧ (0 ≤ limit →
        ((intelligent_search pre store q limit).length : Int) ≤ limit) := by
  constructor
  · intro r hr
    unfold intelligent_search at hr
    split at hr
    · exact absurd hr (List.not_mem_nil r)
    · split at hr
      · exact absurd hr (List.not_mem_nil r)
      · have h1 := mem_sqlLimit hr
        rw [List.mem_insertionSort] at h1
        have h3 := (List.mem_filter.1 h1).2
        rcases List.any_eq_true.1 h3 with ⟨tok, htok, h4⟩
        rcases List.any_eq_true.1 h4 with ⟨term, hterm, h5⟩
        exact ⟨tok, htok, term, hterm, h5⟩
  · intro h
    unfold intelligent_search
    split
    · simpa using h
    · split
      · simpa using h
      · exact sqlLimit_length_le h _

/-- Witness for `c3_smart_search_matching` on a one-record store. -/
theorem c3_witness :
    (∃ tok ∈ preprocess_text "vanda", ∃ term ∈ expand_query tok,
        matches15 c3rec term = true)
    ∧ ((intelligent_search preprocess_text [c3rec] "vanda" 5).length : Int) ≤ 5 :=
  ⟨(c3_smart_search_matching preprocess_text [c3rec] "vanda" 5).1 c3rec (by decide),
   (c3_smart_search_matching preprocess_text [c3rec] "vanda" 5).2 (by decide)⟩

/-! ### Claim C4 -/

/-- Scenario record A: scientific name contains "Vanda". -/
def vandaA : Record := { id := 1, Scientific_Name := some "Vanda sanderiana" }

/-- Scenario record B: genus contains "Vanda". -/
def vandaB : Record := { id := 2, Genus := some "Vanda" }

/-- Scenario record C: no field contains "vanda". -/
def vandaC : Record :=
  { id := 3, Scientific_Name := some "Cattleya labiata", Genus := some "Cattleya" }

/-- Claim C4: smart search scores each qualifying record from the FIRST
normalized token only, with the CASE weights 10 (scientific name), else 8
(genus), else 7 (common names), else 6 (flower color), else 1, and sorts
descending by that score: the result list is always pairwise non-increasing
in the first-token relevance score, and in the three-record Vanda scenario
`smartSearch("vanda", limit 5)` returns A then B (scores 10 and 8) and
excludes C (score would be 1, but C matches no field). -/
theorem c4_first_token_scoring :
    (∀ (pre : String → List String) (store : List Record) (q : String)
        (limit : Int),
       (intelligent_search pre store q limit).Pairwise
         (fun a b =>
           relScore ((pre q).headD "") b ≤ relScore ((pre q).headD "") a))
    ∧ intelligent_search preprocess_text [vandaA, vandaB, vandaC] "vanda" 5
        = [vandaA, vandaB]
    ∧ relScore "vanda" vandaA = 10
    ∧ relScore "vanda" vandaB = 8
    ∧ relScore "vanda" vandaC = 1 := by
  refine ⟨?_, by decide, by decide, by decide, by decide⟩
  intro pre store q limit
  unfold intelligent_search
  split
  · exact List.Pairwise.nil
  · split
    · exact List.Pairwise.nil
    · exact List.Pairwise.sublist (sqlLimit_sublist _ _)
        (List.sorted_insertionSort (scoreGe ((pre q).headD "")) _)

/-! ### Claim C5 -/

/-- Store record used by the C5 counterexample and witness. -/
def c5rec : Record := { Scientific_Name := some "Maxillaria" }

/-- Claim C5 counterexample: when the match primitive fails, the except
branch calls the fallback with the STRIPPED query (the local variable was
reassigned by `query = query.strip()` before the failing statement), not
with the identical raw text: for the raw query " x" (leading space, engine
failing) the full-text path returns the record containing "x", while
`fallback_search` on the identical raw " x" returns nothing. -/
theorem c5_counterexample :
    fulltext_search (fun _ => none) [c5rec] " x" 5 = [c5rec]
    ∧ fallback_search [c5rec] " x" 5 = []
    ∧ fulltext_search (fun _ => none) [c5rec] " x" 5
        ≠ fallback_search [c5rec] " x" 5 :=
  ⟨by decide, by decide, by decide⟩

/-- Claim C5 (amended): for every query on which the match primitive fails
and whose stripped text is non-empty, `fulltext_search` does not raise and
returns exactly `fallback_search` applied to the STRIPPED query text with
the same limit.  (A query stripping to empty returns [] before the engine is
consulted.) -/
theorem c5_fulltext_fallback (eng : String → Option (List Nat))
    (store : List Record) (q : String) (limit : Int)
    (hne : pyStrip q ≠ "") (hfail : eng (pyStrip q) = none) :
    fulltext_search eng store q limit
      = fallback_search store (pyStrip q) limit := by
  unfold fulltext_search
  rw [if_neg hne, hfail]

/-- Witness for `c5_fulltext_fallback` with an engine failing everywhere. -/
theorem c5_witness :
    fulltext_search (fun _ => none) [c5rec] " vanda " 5
      = fallback_search [c5rec] (pyStrip " vanda ") 5 :=
  c5_fulltext_fallback (fun _ => none) [c5rec] " vanda " 5 (by decide) rfl

/-! ### Claim C6 -/

/-- Exact membership of a (normalized) token in some synonym group's term
set — the natural reading of the claim's "belongs to a synonym group". -/
def memberOfAnyGroup (t : String) : Bool :=
  color_synonyms.any (fun p => p.2.contains t) ||
  region_synonyms.any (fun p => p.2.contains t)

/-- Claim C6 counterexample at input "East": (i) the returned set does not
contain the input token itself, only its lower-cased form; (ii) neither
"East" nor "east" is a member of any synonym group, yet the result is not
the singleton of the token: the containment check `query_lower in region`
fires because "east" is a substring of the group NAME "southeast asia",
pulling in that group's whole term set. -/
theorem c6_counterexample :
    memberOfAnyGroup "East" = false
    ∧ memberOfAnyGroup "east" = false
    ∧ "East" ∉ expand_query "East"
    ∧ expand_query "East" ≠ ["East"]
    ∧ expand_query "East" ≠ ["east"] :=
  ⟨by decide, by decide, by decide, by decide, by decide⟩

/-- Claim C6 (amended): the expansion always contains the LOWER-CASED,
STRIPPED input token; and whenever that normalized token is a member of no
color group, a member of no region group, and also not a substring of any
region group's NAME, the expansion is exactly the singleton of the
normalized token. -/
theorem c6_expand_query (q : String) :
    pyStrip (strLower q) ∈ expand_query q
    ∧ ((color_synonyms.all
          (fun p => !p.2.contains (pyStrip (strLower q))) = true
        ∧ region_synonyms.all
            (fun p => !(strIn (pyStrip (strLower q)) p.1
                        || p.2.contains (pyStrip (strLower q)))) = true) →
       expand_query q = [pyStrip (strLower q)]) := by
  constructor
  · unfold expand_query
    rw [List.mem_dedup]
    unfold expandRegion
    have h1 : pyStrip (strLower q) ∈ expandColor (pyStrip (strLower q)) := by
      unfold expandColor
      split <;> simp
    split
    · exact List.mem_append_left _ h1
    · exact h1
  · rintro ⟨hc, hr⟩
    have hc' : color_synonyms.find?
        (fun p => p.2.contains (pyStrip (strLower q))) = none := by
      rw [List.find?_eq_none]
      intro x hx
      have := List.all_eq_true.1 hc x hx
      simp only [Bool.not_eq_true'] at this
      simpa using this
    have hr' : region_synonyms.find?
        (fun p => strIn (pyStrip (strLower q)) p.1
                  || p.2.contains (pyStrip (strLower q))) = none := by
      rw [List.find?_eq_none]
      intro x hx
      have := List.all_eq_true.1 hr x hx
      simp only [Bool.not_eq_true'] at this
      simpa using this
    unfold expand_query expandRegion expandColor
    rw [hc', hr']
    simp

/-- Witness for `c6_expand_query`: a token in no group expands to itself. -/
theorem c6_witness :
    pyStrip (strLower "zygopetalum") ∈ expand_query "zygopetalum"
    ∧ expand_query "zygopetalum" = [pyStrip (strLower "zygopetalum")] :=
  ⟨(c6_expand_query "zygopetalum").1,
   (c6_expand_query "zygopetalum").2 ⟨by decide, by decide⟩⟩

/-! ### Filter-condition helper lemmas -/

theorem tcond_inactive {v : Option FVal} (h : truthy v = false)
    (f : Option String) : tcond v f = true := by
  cases v with
  | none => rfl
  | some w =>
      have hw : truthyV w = false := h
      simp [tcond, hw]

theorem fragCondSem_inactive {v : Option FVal} (h : truthy v = false)
    (f : Option String) : fragCondSem v f = true := by
  cases v with
  | none => rfl
  | some w =>
      have hw : truthyV w = false := h
      simp [fragCondSem, hw]

theorem ncondGE_inactive {v : Option FVal} (h : notNone v = false)
    (c : Option Int) : ncondGE v c = true := by
  cases v with
  | none => rfl
  | some w =>
      have hw : w = FVal.vnone := by simpa [notNone] using h
      subst hw
      rfl

theorem ncondLE_inactive {v : Option FVal} (h : notNone v = false)
    (c : Option Int) : ncondLE v c = true := by
  cases v with
  | none => rfl
  | some w =>
      have hw : w = FVal.vnone := by simpa [notNone] using h
      subst hw
      rfl

/-! ### Claim C7 -/

/-- Claim C7: the structured-filter path with genus "Phalaenopsis", every
other recognized filter empty or absent, and limit 10 returns at most 10
records, each with a genus field containing "Phalaenopsis" as a
case-insensitive substring. -/
theorem c7_genus_filter (store : List Record) (fs : FBag)
    (hg : findVal "genus" fs = some (FVal.vstr "Phalaenopsis"))
    (_hrest : semOnlyGenus fs = true) :
    (semantic_search store 10 fs).length ≤ 10
    ∧ ∀ r ∈ semantic_search store 10 fs,
        likeContains r.Genus "Phalaenopsis" = true := by
  constructor
  · unfold semantic_search sqlLimit
    rw [if_neg (by decide)]
    exact List.length_take_le _ _
  · intro r hr
    unfold semantic_search at hr
    have h1 := mem_sqlLimit hr
    have h2 := (List.mem_filter.1 h1).2
    unfold semCondV at h2
    rw [hg] at h2
    simp only [Bool.and_eq_true] at h2
    have h3 := h2.1.1.1.1.1.1
    simpa [tcond, truthyV] using h3

/-- Store record used by the C7 witness. -/
def c7rec : Record := { Genus := some "Phalaenopsis" }

/-- Witness for `c7_genus_filter` on a concrete one-record store. -/
theorem c7_witness :
    (semantic_search [c7rec] 10 [("genus", FVal.vstr "Phalaenopsis")]).length ≤ 10
    ∧ ∀ r ∈ semantic_search [c7rec] 10 [("genus", FVal.vstr "Phalaenopsis")],
        likeContains r.Genus "Phalaenopsis" = true :=
  c7_genus_filter [c7rec] [("genus", FVal.vstr "Phalaenopsis")]
    (by decide) (by decide)

/-! ### Claim C8 -/

/-- Claim C8: combined search with no text component and the filters
min_temp 15 and max_temp 25 returns only records whose temperature bounds
are non-null and satisfy Temperature_Min_C >= 15 and
Temperature_Max_C <= 25 (other filters, if any, can only narrow further). -/
theorem c8_temperature_bounds (store : List Record) (fs : FBag) (limit : Int)
    (hmn : findVal "min_temp" fs = some (FVal.vnum 15))
    (hmx : findVal "max_temp" fs = some (FVal.vnum 25)) :
    ∀ r ∈ combined_search none store limit fs,
      (∃ a, r.Temperature_Min_C = some a ∧ 15 ≤ a)
      ∧ (∃ b, r.Temperature_Max_C = some b ∧ b ≤ 25) := by
  intro r hr
  unfold combined_search at hr
  have h1 := mem_sqlLimit hr
  have h2 := (List.mem_filter.1 h1).2
  unfold combCondV at h2
  rw [hmn, hmx] at h2
  simp only [Bool.and_eq_true] at h2
  have hmin := h2.1.1.2
  have hmax := h2.1.2
  constructor
  · cases hc : r.Temperature_Min_C with
    | none => simp [ncondGE, numGE, numOf, hc] at hmin
    | some a =>
        refine ⟨a, rfl, ?_⟩
        simpa [ncondGE, numGE, numOf, hc] using hmin
  · cases hc : r.Temperature_Max_C with
    | none => simp [ncondLE, numLE, numOf, hc] at hmax
    | some b =>
        refine ⟨b, rfl, ?_⟩
        simpa [ncondLE, numLE, numOf, hc] using hmax

/-- Store record used by the C8 witness. -/
def c8rec : Record :=
  { Temperature_Min_C := some 18, Temperature_Max_C := some 24 }

/-- Witness for `c8_temperature_bounds` on a concrete one-record store. -/
theorem c8_witness :
    (∃ a, c8rec.Temperature_Min_C = some a ∧ 15 ≤ a)
    ∧ (∃ b, c8rec.Temperature_Max_C = some b ∧ b ≤ 25) :=
  c8_temperature_bounds [c8rec]
    [("min_temp", FVal.vnum 15), ("max_temp", FVal.vnum 25)] 50
    (by decide) (by decide) c8rec (by decide)

/-! ### Claim C9 -/

/-- The filter bag restricted to the recognized keys (every other key
dropped). -/
def restrictToRecognized (fs : FBag) : FBag :=
  fs.filter (fun p => recognizedFilterKeys.contains p.1)

theorem findVal_restrict (k : String) (fs : FBag)
    (hk : recognizedFilterKeys.contains k = true) :
    findVal k (restrictToRecognized fs) = findVal k fs := by
  unfold restrictToRecognized findVal
  rw [List.find?_filter]
  congr 1
  refine congrArg (fun p => List.find? p fs) (funext fun a => ?_)
  by_cases hp : a.1 = k
  · subst hp
    have hm : a.1 ∈ recognizedFilterKeys := by simpa using hk
    simp [hm]
  · simp [hp]

/-- Claim C9: the structured-filter path reads only the seven recognized
keys, so dropping every unrecognized key from the bag leaves the result
unchanged (unrecognized keys are silently ignored and cannot raise); and
when zero recognized filters carry an active value, the result is the
unconditional match: the whole store under the SQL limit. -/
theorem c9_filter_keys (store : List Record) (limit : Int) (fs : FBag) :
    semantic_search store limit (restrictToRecognized fs)
        = semantic_search store limit fs
    ∧ (semNoActive fs = true →
        semantic_search store limit fs = sqlLimit limit store) := by
  constructor
  · unfold semantic_search
    rw [findVal_restrict "genus" fs (by decide),
        findVal_restrict "flower_color" fs (by decide),
        findVal_restrict "min_temp" fs (by decide),
        findVal_restrict "max_temp" fs (by decide),
        findVal_restrict "native_region" fs (by decide),
        findVal_restrict "fragrance" fs (by decide),
        findVal_restrict "difficulty" fs (by decide)]
  · intro h
    unfold semNoActive at h
    simp only [Bool.and_eq_true, Bool.not_eq_true'] at h
    obtain ⟨⟨⟨⟨⟨⟨h1, h2⟩, h3⟩, h4⟩, h5⟩, h6⟩, h7⟩ := h
    unfold semantic_search
    congr 1
    rw [List.filter_eq_self]
    intro r _
    unfold semCondV
    rw [tcond_inactive h1, tcond_inactive h2, ncondGE_inactive h3,
        ncondLE_inactive h4, tcond_inactive h5, fragCondSem_inactive h6,
        tcond_inactive h7]
    rfl

/-- Store record used by the C9 witness. -/
def c9rec : Record := { Flower_Color := some "pink" }

/-- Witness for `c9_filter_keys`: a bag holding one unrecognized key and one
empty-valued recognized key behaves like its restriction and like no filter
at all. -/
theorem c9_witness :
    semantic_search [c9rec] 5
        (restrictToRecognized
          [("bogus_key", FVal.vstr "x"), ("genus", FVal.vstr "")])
      = semantic_search [c9rec] 5
          [("bogus_key", FVal.vstr "x"), ("genus", FVal.vstr "")]
    ∧ semantic_search [c9rec] 5
        [("bogus_key", FVal.vstr "x"), ("genus", FVal.vstr "")]
      = sqlLimit 5 [c9rec] :=
  ⟨(c9_filter_keys [c9rec] 5
      [("bogus_key", FVal.vstr "x"), ("genus", FVal.vstr "")]).1,
   (c9_filter_keys [c9rec] 5
      [("bogus_key", FVal.vstr "x"), ("genus", FVal.vstr "")]).2 (by decide)⟩

/-! ### Claim C10 -/

/-- Claim C10: `combined_search` treats the empty-string text query exactly
like an absent one — Python's `if text_query:` is false for both, so no text
condition is contributed — hence for every filter bag, store and limit the
two calls return identical result lists. -/
theorem c10_empty_text_combined (fs : FBag) (store : List Record)
    (limit : Int) :
    combined_search (some "") store limit fs
      = combined_search none store limit fs := rfl
